import Mathlib

/-!
Shallow embedding of `tile_tools/tile_tools.py` and the `geotiff` branch of
`src/tile.py` (a map-tile download and stitching utility).

Modelling conventions:
* Python `int` is `Int` (or `Nat` for zoom levels, which are non-negative in
  every call site); Python floats that only flow through comparisons,
  additions and divisions are modelled as `ℚ`.
* The transcendental parts of the projection (`math.log`, `math.tan`,
  `math.atan`, `math.sinh`, `math.pi`), evaluated by libm on IEEE doubles,
  are abstracted as parameters collected in `GeoFns`; every theorem about
  the surrounding structure is universally quantified over them.
* The filesystem is a pair of total maps (files and directories), the
  network is a function from tiles to response outcomes, and PIL's
  decode/re-encode of an image payload is an abstract function `reencode`.
* The fetch loop `for tile in eventlet.GreenPool(10).imap(fetch, downloads)`
  yields results in input order and the loop body consumes them
  sequentially, so a run is modelled as a left fold over `downloads`.
-/

namespace TileTools

/-! ## Embedded definitions -/

/-- Raw byte strings (HTTP bodies, file contents). -/
abbrev Bytes := List Nat

/-- Embedding of `Tile.__init__`: a tile is `(x, y, z)` plus a transient
image payload (`self.image`, initially `None`). -/
structure Tile where
  x : Int
  y : Int
  z : Nat
  image : Option Bytes := none
deriving DecidableEq

/-- Abstracted transcendental geometry, standing for the libm/IEEE-double
computations the Python code performs: `deg2num` is the body of
`TileSet.deg2num` (lat, lon, zoom to tile indices), `to_point` is
`Tile.to_point` (tile corner to lon/lat), and `lonlat_to_meters` is
`Tile.lonlat_to_meters` (lon/lat to EPSG:900913 meters). -/
structure GeoFns where
  deg2num : ℚ → ℚ → Nat → Int × Int
  to_point : Int → Int → Nat → ℚ × ℚ
  lonlat_to_meters : ℚ × ℚ → ℚ × ℚ

/-- Latitude clamp constant `85.05112877980659` from `TileSet.check_north`
and `TileSet.check_south`. -/
def MAX_LAT : ℚ := 85.05112877980659

/-- Embedding of `TileSet.check_north`. -/
def check_north (north : ℚ) : ℚ :=
  if north > MAX_LAT then MAX_LAT else north

/-- Embedding of `TileSet.check_south`. -/
def check_south (south : ℚ) : ℚ :=
  if south < -MAX_LAT then -MAX_LAT else south

/-- Python `range(a, b + 1)` over integers: the list `[a, a+1, …, b]`,
empty when `b < a`. -/
def intRange (a b : Int) : List Int :=
  (List.range (b + 1 - a).toNat).map (fun i : Nat => a + (i : Int))

/-- Python `range(a, b + 1)` over naturals (used for `zoom_range`). -/
def natRange (a b : Nat) : List Nat :=
  (List.range (b + 1 - a)).map (fun i => a + i)

/-- Embedding of `TileSet`: the bounding box is stored already clamped (the
constructor applies `check_north` / `check_south` before any tile math);
`folder` is the job-name component of output paths.  The provider plays no
role in tile enumeration and is omitted. -/
structure TileSet where
  folder : String
  bbox_n : ℚ
  bbox_e : ℚ
  bbox_s : ℚ
  bbox_w : ℚ
  zoom_min : Nat
  zoom_max : Nat

/-- Embedding of `TileSet.__init__`: clamp the extents, store the zoom
bounds (`extents` is ordered north, south, west, east as in the source). -/
def TileSet.make (folder : String) (north south west east : ℚ)
    (zoom_min zoom_max : Nat) : TileSet :=
  { folder := folder
    bbox_n := check_north north
    bbox_e := east
    bbox_s := check_south south
    bbox_w := west
    zoom_min := zoom_min
    zoom_max := zoom_max }

/-- Embedding of `self.zoom_range = range(zoom_min, zoom_max + 1)`. -/
def TileSet.zoom_range (ts : TileSet) : List Nat :=
  natRange ts.zoom_min ts.zoom_max

/-- Embedding of `TileSet.top_left`: `deg2num(bbox['n'], bbox['w'], zoom)`. -/
def TileSet.top_left (g : GeoFns) (ts : TileSet) (zoom : Nat) : Int × Int :=
  g.deg2num ts.bbox_n ts.bbox_w zoom

/-- Embedding of `TileSet.bottom_right`: `deg2num(bbox['s'], bbox['e'], zoom)`. -/
def TileSet.bottom_right (g : GeoFns) (ts : TileSet) (zoom : Nat) : Int × Int :=
  g.deg2num ts.bbox_s ts.bbox_e zoom

/-- Embedding of `TileSet.cols`:
`range(top_left(zoom)[0], bottom_right(zoom)[0] + 1)`. -/
def TileSet.cols (g : GeoFns) (ts : TileSet) (zoom : Nat) : List Int :=
  intRange (ts.top_left g zoom).1 (ts.bottom_right g zoom).1

/-- Embedding of `TileSet.rows`:
`range(top_left(zoom)[1], bottom_right(zoom)[1] + 1)`. -/
def TileSet.rows (g : GeoFns) (ts : TileSet) (zoom : Nat) : List Int :=
  intRange (ts.top_left g zoom).2 (ts.bottom_right g zoom).2

/-- Body of `TileSet.pop_tileset` for one zoom, as the literal loop
translation: `tiles = []`, then `for x in cols: for y in rows:
tiles.append(Tile(z=zoom, x=x, y=y))`. -/
def pop_tileset_loop (cols rows : List Int) (zoom : Nat) : List Tile :=
  cols.foldl
    (fun acc x => rows.foldl (fun acc2 y => acc2 ++ [⟨x, y, zoom, none⟩]) acc)
    []

/-- Embedding of the dict built by `TileSet.pop_tileset`, as the per-zoom
tile list (dict lookup is function application). -/
def TileSet.tiles (g : GeoFns) (ts : TileSet) (zoom : Nat) : List Tile :=
  pop_tileset_loop (ts.cols g zoom) (ts.rows g zoom) zoom

/-- Embedding of `TileSet.extents_meters`: meters of the top-left corner of
the top-left tile, and of the bottom-right corner (the top-left corner of
tile `(x2+1, y2+1)`, via `to_rectangle_meters`) of the bottom-right tile. -/
def TileSet.extents_meters (g : GeoFns) (ts : TileSet) (zoom : Nat) :
    (ℚ × ℚ) × (ℚ × ℚ) :=
  let tl := ts.top_left g zoom
  let br := ts.bottom_right g zoom
  (g.lonlat_to_meters (g.to_point tl.1 tl.2 zoom),
   g.lonlat_to_meters (g.to_point (br.1 + 1) (br.2 + 1) zoom))

/-- Filesystem paths.  The `tile` constructor is `Tile.full_path`:
`os.path.join(out_path, job_name, str(z), str(x), str(y) + ".png")`;
`mosaic` and `world` are `os.path.join(out_path, job_name) + ".png"` and
`+ ".pngw"`, written by `TileStitchJob.stitch`.  `os.path.join` is
modelled as tupling. -/
inductive FPath where
  | tile (out_path job_name : String) (z : Nat) (x y : Int)
  | mosaic (out_path job_name : String)
  | world (out_path job_name : String)
deriving DecidableEq

/-- Result of `os.path.dirname` on a tile path: `out_path/job_name/z/x`. -/
structure DirPath where
  out_path : String
  job_name : String
  z : Nat
  x : Int
deriving DecidableEq

/-- Contents of a file: raw bytes (tile PNGs), a stitched raster (its
dimensions and pastes), or the six world-file lines (numbers; the `str()`
formatting is abstracted away). -/
inductive FileData where
  | bytes (b : Bytes)
  | raster (width height : Nat) (pastes : List (FileData × Int × Int))
  | worldFile (lines : List ℚ)

/-- Filesystem state: a map from paths to file contents plus the set of
existing directories (`os.makedirs` targets). -/
structure FS where
  files : FPath → Option FileData
  dirs : DirPath → Bool

/-- Effect of `os.makedirs(d)` guarded against `EEXIST` (idempotent). -/
def FS.createDir (fs : FS) (d : DirPath) : FS :=
  { fs with dirs := fun d2 => if d2 = d then true else fs.dirs d2 }

/-- Effect of writing a file (`im.save` / `f.writelines`). -/
def FS.write (fs : FS) (p : FPath) (data : FileData) : FS :=
  { fs with files := fun p2 => if p2 = p then some data else fs.files p2 }

/-- Embedding of `Tile.full_path`:
`os.path.join(out_path, job_name, tile.path())`. -/
def Tile.full_path (t : Tile) (out_path job_name : String) : FPath :=
  .tile out_path job_name t.z t.x t.y

/-- Embedding of `os.path.dirname` on the paths the code uses it on. -/
def FPath.dirname (p : FPath) : Option DirPath :=
  match p with
  | .tile o j z x _ => some ⟨o, j, z, x⟩
  | _ => none

/-- Counters dict of `TileDownloadJob` (`self.counts`), one field per key
the code uses. -/
structure Counts where
  download : Nat := 0
  exists_ct : Nat := 0
  attempted : Nat := 0
  found : Nat := 0
  blocked : Nat := 0
  not_found : Nat := 0
deriving DecidableEq

/-- All tiles of all requested zooms, in the iteration order of
`gen_download_lists`: `for zoom in zoom_range: for tile in tiles[zoom]`. -/
def TileSet.all_tiles (g : GeoFns) (ts : TileSet) : List Tile :=
  ts.zoom_range.flatMap (fun z => ts.tiles g z)

/-- State of a `TileDownloadJob` after construction.  The `exists` list of
the source is named `exists'` because `exists` is reserved in Lean. -/
structure TileDownloadJob where
  out_path : String
  job_name : String
  tileset : TileSet
  downloads : List Tile
  exists' : List Tile
  counts : Counts

/-- Loop of `TileDownloadJob.gen_download_lists`: each tile is appended to
`downloads` if its file does not exist on disk, else to `exists`. -/
def gen_download_lists_loop (fs : FS) (out_path job_name : String)
    (tiles : List Tile) : List Tile × List Tile :=
  tiles.foldl
    (fun acc tile =>
      if (fs.files (tile.full_path out_path job_name)).isSome then
        (acc.1, acc.2 ++ [tile])
      else
        (acc.1 ++ [tile], acc.2))
    ([], [])

/-- Embedding of `TileDownloadJob.__init__`: `job_name = tileset.folder`,
then `gen_download_lists` partitions the tiles and sets the two counters. -/
def TileDownloadJob.make (g : GeoFns) (fs : FS) (out_path : String)
    (ts : TileSet) : TileDownloadJob :=
  let dl := gen_download_lists_loop fs out_path ts.folder (ts.all_tiles g)
  { out_path := out_path
    job_name := ts.folder
    tileset := ts
    downloads := dl.1
    exists' := dl.2
    counts := { download := dl.1.length, exists_ct := dl.2.length } }

/-- Outcome of `urllib2.urlopen(url).read()` for one tile: a body, an
HTTPError with a status code, or a URLError (transport failure). -/
inductive NetResult where
  | success (body : Bytes)
  | httpError (code : Nat)
  | urlError

/-- Python exceptions the model distinguishes: IOError (from
`open("blank.png")` when the placeholder file is missing) and TypeError
(wrong number of call arguments, for the driver model). -/
inductive PyExc where
  | ioError
  | typeError
deriving DecidableEq

/-- Statement-by-statement translation of the `fetch` closure of
`get_tiles`, up to but not including `finally: return tile`.  The third
component is the exception in flight when the `finally` block runs:
`none` when the `try` body or a handler completed normally, `some` when a
handler itself raised — the only such case being the 404 handler's
`open("blank.png")` with the placeholder file absent, after `not_found`
was already incremented. -/
def fetch_inflight (net : Tile → NetResult) (blank : Option Bytes)
    (c : Counts) (t : Tile) : Counts × Tile × Option PyExc :=
  let c1 : Counts := { c with attempted := c.attempted + 1 }
  match net t with
  | .success body =>
      ({ c1 with found := c1.found + 1 }, { t with image := some body }, none)
  | .httpError code =>
      if code = 403 then
        ({ c1 with blocked := c1.blocked + 1 }, t, none)
      else if code = 404 then
        match blank with
        | some b =>
            ({ c1 with not_found := c1.not_found + 1 },
             { t with image := some b }, none)
        | none =>
            ({ c1 with not_found := c1.not_found + 1 }, t, some .ioError)
      else
        (c1, t, none)  -- `print e.code`: handled, no further state change
  | .urlError => (c1, t, none)  -- `print e`: handled, no state change

/-- Whole `fetch` closure: `finally: return tile` discards any exception
still in flight and returns the (possibly mutated) tile. -/
def fetch (net : Tile → NetResult) (blank : Option Bytes)
    (c : Counts) (t : Tile) : Counts × Tile :=
  ((fetch_inflight net blank c t).1, (fetch_inflight net blank c t).2.1)

/-- Embedding of the `test_path` closure:
`os.makedirs(os.path.dirname(filename))` unless the directory already
exists (the EEXIST guard makes the create idempotent). -/
def test_path (fs : FS) (p : FPath) : FS :=
  match p.dirname with
  | some d => if fs.dirs d then fs else fs.createDir d
  | none => fs

/-- Mutable state of a `get_tiles` run: the counters, the `exists` list
(appended to after each persist) and the filesystem. -/
structure RunState where
  counts : Counts
  exists' : List Tile
  fs : FS

/-- One iteration of the `for tile in pool.imap(fetch, self.downloads)`
loop: fetch, then `test_path(filename)` unconditionally, then — only when
`tile.image` is truthy (non-empty bytes) — decode and re-encode the
payload (`reencode` abstracts PIL), save it at the tile's canonical path,
clear the payload, and append the tile to `exists`. -/
def get_tiles_step (net : Tile → NetResult) (blank : Option Bytes)
    (reencode : Bytes → Bytes) (out_path job_name : String)
    (st : RunState) (tile : Tile) : RunState :=
  let ct := fetch net blank st.counts tile
  let t := ct.2
  let filename := t.full_path out_path job_name
  let fs1 := test_path st.fs filename
  match t.image with
  | some b =>
      if b.isEmpty then
        { counts := ct.1, exists' := st.exists', fs := fs1 }
      else
        { counts := ct.1
          exists' := st.exists' ++ [{ t with image := none }]
          fs := fs1.write filename (.bytes (reencode b)) }
  | none => { counts := ct.1, exists' := st.exists', fs := fs1 }

/-- Embedding of `TileDownloadJob.get_tiles`: zero the four run counters,
then drain `downloads` in order as a left fold. -/
def get_tiles (net : Tile → NetResult) (blank : Option Bytes)
    (reencode : Bytes → Bytes) (job : TileDownloadJob) (fs0 : FS) : RunState :=
  job.downloads.foldl
    (get_tiles_step net blank reencode job.out_path job.job_name)
    { counts := { job.counts with
                    blocked := 0, not_found := 0, found := 0, attempted := 0 }
      exists' := job.exists'
      fs := fs0 }

/-- Embedding of `TileStitchJob.__init__(self, tile_download_job, zoom)`;
the source's `self.path = os.path.join(out_path, job_name)` is kept as the
two components. -/
structure TileStitchJob where
  out_path : String
  job_name : String
  tileset : TileSet
  zoom : Nat

/-- Construction of a `TileStitchJob` from a download job and a zoom. -/
def TileStitchJob.make (job : TileDownloadJob) (zoom : Nat) : TileStitchJob :=
  { out_path := job.out_path
    job_name := job.job_name
    tileset := job.tileset
    zoom := zoom }

/-- Embedding of `self.px = 256 * len(cols(zoom))`. -/
def TileStitchJob.px (g : GeoFns) (s : TileStitchJob) : Nat :=
  256 * (s.tileset.cols g s.zoom).length

/-- Embedding of `self.py = 256 * len(rows(zoom))`. -/
def TileStitchJob.py (g : GeoFns) (s : TileStitchJob) : Nat :=
  256 * (s.tileset.rows g s.zoom).length

/-- Embedding of `TileStitchJob.gen_world`: the six world-file numbers in
file order (each is written as its own `str(x) + "\x5cn"` line). -/
def TileStitchJob.gen_world (g : GeoFns) (s : TileStitchJob) : List ℚ :=
  let ext := s.tileset.extents_meters g s.zoom
  let pixel_x := |ext.1.1 - ext.2.1| / (s.px g : ℚ)
  let pixel_y := -|(ext.1.2 - ext.2.2) / (s.py g : ℚ)|
  [pixel_x, 0, 0, pixel_y, ext.1.1, ext.1.2]

/-- Paste loop of `TileStitchJob.stitch`: for each tile in stored order,
`Image.open(path)` — an IOError naming the path, which aborts the whole
operation, when the file is missing — then paste at
`(256·(x − start.x), 256·(y − start.y))`. -/
def stitch_loop (fs : FS) (o j : String) (start : Int × Int) :
    List Tile → List (FileData × Int × Int) →
      Except FPath (List (FileData × Int × Int))
  | [], acc => .ok acc
  | t :: rest, acc =>
      match fs.files (t.full_path o j) with
      | some img =>
          stitch_loop fs o j start rest
            (acc ++ [(img, 256 * (t.x - start.1), 256 * (t.y - start.2))])
      | none => .error (t.full_path o j)

/-- Embedding of `TileStitchJob.stitch`: allocate the `px × py` canvas,
run the paste loop, and only after it completes save the mosaic and write
the world file.  A missing tile file raises before either output is
written, leaving the filesystem exactly as it was. -/
def TileStitchJob.stitch (g : GeoFns) (s : TileStitchJob) (fs : FS) :
    FS × Except FPath FileData :=
  match stitch_loop fs s.out_path s.job_name (s.tileset.top_left g s.zoom)
      (s.tileset.tiles g s.zoom) [] with
  | .error p => (fs, .error p)
  | .ok pastes =>
      let canvas : FileData := .raster (s.px g) (s.py g) pastes
      ((fs.write (.mosaic s.out_path s.job_name) canvas).write
          (.world s.out_path s.job_name) (.worldFile (s.gen_world g)),
       .ok canvas)

/-- Untyped Python value passed to a constructor call. -/
inductive PyVal where
  | downloadJob (j : TileDownloadJob)
  | pyNat (n : Nat)

/-- CPython argument binding for
`TileStitchJob.__init__(self, tile_download_job, zoom)`: two required
positional parameters and no defaults, so any other argument count raises
TypeError before the body runs. -/
def TileStitchJob_call (args : List PyVal) : Except PyExc (PyVal × PyVal) :=
  match args with
  | [a, b] => .ok (a, b)
  | _ => .error .typeError

/-- Embedding of the driver's `geotiff` branch (`src/tile.py`):
`s = tile_tools.TileStitchJob(t)` — one argument — then `s.stitch()`.
On successful construction it would run the stitch and return its
result. -/
def geotiff_command (g : GeoFns) (t : TileDownloadJob) (fs : FS) :
    Except PyExc (FS × Except FPath FileData) :=
  match TileStitchJob_call [.downloadJob t] with
  | .error e => .error e
  | .ok (a, b) =>
      match a, b with
      | .downloadJob job, .pyNat z =>
          .ok (TileStitchJob.stitch g (TileStitchJob.make job z) fs)
      | _, _ => .error .typeError

/-! ## Concrete fixtures for witnesses and counterexamples -/

/-- Trivial witness geometry: every bbox corner maps to tile `(0, 0)`. -/
def gW0 : GeoFns :=
  { deg2num := fun _ _ _ => (0, 0)
    to_point := fun x y _ => ((x : ℚ), (y : ℚ))
    lonlat_to_meters := fun p => p }

/-- Single-zoom, single-tile witness tileset. -/
def tsW0 : TileSet := TileSet.make "job0" 1 (-1) (-1) 1 0 0

/-- Empty filesystem. -/
def fsEmpty : FS := { files := fun _ => none, dirs := fun _ => false }

/-- Result of `TileDownloadJob("out", tsW0)` over the empty filesystem:
the one tile goes to `downloads`. -/
def jobW0 : TileDownloadJob := TileDownloadJob.make gW0 fsEmpty "out" tsW0

/-- Provider that answers 403 to every request. -/
def net403 : Tile → NetResult := fun _ => .httpError 403

/-- Witness geometry for a 2×3 block: `deg2num` sends the north edge to
tile `(1, 1)` and the south edge to `(2, 3)`. -/
def gW : GeoFns :=
  { deg2num := fun lat _ _ => if lat > 0 then (1, 1) else (2, 3)
    to_point := fun x y _ => ((x : ℚ), (y : ℚ))
    lonlat_to_meters := fun p => (2 * p.1, 3 * p.2) }

/-- Witness tileset with zoom range `[2, 4]`. -/
def tsW : TileSet := TileSet.make "demo" 50 (-50) (-10) 10 2 4

/-- Witness geometry for a 2×2 block: the west edge maps to tile `(0, 0)`,
the east edge to `(1, 1)` (branching on longitude keeps the decisions on
small unclamped literals, so they evaluate by `decide`). -/
def gW2 : GeoFns :=
  { deg2num := fun _ lon _ => if lon > 0 then (1, 1) else (0, 0)
    to_point := fun x y _ => ((x : ℚ), (y : ℚ))
    lonlat_to_meters := fun p => (2 * p.1, 3 * p.2) }

/-- Tileset for the 2×2 stitch witnesses, zoom range `[1, 1]`. -/
def tsW2 : TileSet := TileSet.make "demo2" 50 (-50) (-10) 10 1 1

/-- Stitch job over `tsW2` at zoom 1. -/
def sW2 : TileStitchJob :=
  { out_path := "out", job_name := "demo2", tileset := tsW2, zoom := 1 }

/-- Filesystem holding every zoom-1 tile file of `tsW2`. -/
def fs4 : FS :=
  { files := fun p =>
      match p with
      | .tile "out" "demo2" 1 _ _ => some (.bytes [1])
      | _ => none
    dirs := fun _ => false }

/-! ## Theorems -/

theorem mem_intRange {a b x : Int} :
    x ∈ intRange a b ↔ a ≤ x ∧ x ≤ b := by
  simp only [intRange, List.mem_map, List.mem_range]
  constructor
  · rintro ⟨i, hi, rfl⟩
    omega
  · rintro ⟨h1, h2⟩
    refine ⟨(x - a).toNat, ?_, ?_⟩
    · omega
    · omega

theorem intRange_nodup (a b : Int) : (intRange a b).Nodup := by
  unfold intRange
  exact (List.nodup_range _).map (fun i j h => by omega)

theorem intRange_length (a b : Int) :
    (intRange a b).length = (b + 1 - a).toNat := by
  unfold intRange
  simp

/-- Appending double loop of `pop_tileset` equals the flat cross product
over columns and rows. -/
theorem pop_tileset_loop_eq (cols rows : List Int) (zoom : Nat) :
    pop_tileset_loop cols rows zoom =
      cols.flatMap (fun x => rows.map (fun y => (⟨x, y, zoom, none⟩ : Tile))) := by
  unfold pop_tileset_loop
  suffices h : ∀ (cs : List Int) (acc : List Tile),
      cs.foldl
        (fun acc x => rows.foldl (fun acc2 y => acc2 ++ [⟨x, y, zoom, none⟩]) acc)
        acc =
      acc ++ cs.flatMap (fun x => rows.map (fun y => (⟨x, y, zoom, none⟩ : Tile))) by
    simpa using h cols []
  intro cs
  induction cs with
  | nil => intro acc; simp
  | cons c cs ih =>
    intro acc
    have hinner : ∀ (rs : List Int) (acc2 : List Tile),
        rs.foldl (fun acc2 y => acc2 ++ [(⟨c, y, zoom, none⟩ : Tile)]) acc2 =
        acc2 ++ rs.map (fun y => (⟨c, y, zoom, none⟩ : Tile)) := by
      intro rs
      induction rs with
      | nil => intro acc2; simp
      | cons r rs ihr => intro acc2; simp [ihr]
    simp only [List.foldl_cons, List.flatMap_cons, ih, hinner]
    simp

/-- C1: for every bounding box (any `GeoFns`, any `TileSet`) and zoom `Z`
in the zoom range, the stored tile sequence for `Z` is exactly the
row-major cross product of `x ∈ [top_left(Z).x, bottom_right(Z).x]` and
`y ∈ [top_left(Z).y, bottom_right(Z).y]` (both inclusive, `x` outer, `y`
inner); it has exactly `cols × rows` elements, no duplicates, and every
tile lies componentwise between `top_left(Z)` and `bottom_right(Z)`. -/
theorem c1_tileset_enumeration (g : GeoFns) (ts : TileSet) (zoom : Nat)
    (_h1 : ts.zoom_min ≤ zoom) (_h2 : zoom ≤ ts.zoom_max) :
    ts.tiles g zoom =
      (ts.cols g zoom).flatMap
        (fun x => (ts.rows g zoom).map (fun y => (⟨x, y, zoom, none⟩ : Tile))) ∧
    (ts.tiles g zoom).length = (ts.cols g zoom).length * (ts.rows g zoom).length ∧
    (ts.tiles g zoom).Nodup ∧
    ∀ t ∈ ts.tiles g zoom,
      (ts.top_left g zoom).1 ≤ t.x ∧ t.x ≤ (ts.bottom_right g zoom).1 ∧
      (ts.top_left g zoom).2 ≤ t.y ∧ t.y ≤ (ts.bottom_right g zoom).2 ∧
      t.z = zoom := by
  have heq : ts.tiles g zoom =
      (ts.cols g zoom).flatMap
        (fun x => (ts.rows g zoom).map (fun y => (⟨x, y, zoom, none⟩ : Tile))) :=
    pop_tileset_loop_eq _ _ _
  refine ⟨heq, ?_, ?_, ?_⟩
  · rw [heq, List.length_flatMap]
    simp [Function.comp_def, Nat.mul_comm]
  · rw [heq, List.nodup_flatMap]
    constructor
    · intro x _
      exact (intRange_nodup _ _).map fun y1 y2 h => by
        simpa using congrArg Tile.y h
    · have hcols : (ts.cols g zoom).Pairwise (· ≠ ·) :=
        intRange_nodup (ts.top_left g zoom).1 (ts.bottom_right g zoom).1
      refine hcols.imp ?_
      intro x1 x2 hne t ht1 ht2
      simp only [Function.onFun, List.mem_map] at ht1 ht2
      obtain ⟨y1, _, rfl⟩ := ht1
      obtain ⟨y2, _, h2'⟩ := ht2
      have hx : x2 = x1 := congrArg Tile.x h2'
      exact hne hx.symm
  · intro t ht
    rw [heq] at ht
    simp only [List.mem_flatMap, List.mem_map] at ht
    obtain ⟨x, hx, y, hy, rfl⟩ := ht
    rw [TileSet.cols, mem_intRange] at hx
    rw [TileSet.rows, mem_intRange] at hy
    exact ⟨hx.1, hx.2, hy.1, hy.2, rfl⟩

/-- Witness for C1 at `gW`, `tsW`, zoom 3: the 2×3 block of tiles. -/
theorem c1_tileset_enumeration_witness :
    tsW.zoom_min ≤ 3 ∧ 3 ≤ tsW.zoom_max ∧
    (tsW.tiles gW 3).length = (tsW.cols gW 3).length * (tsW.rows gW 3).length := by
  refine ⟨by decide, by decide, ?_⟩
  exact (c1_tileset_enumeration gW tsW 3 (by decide) (by decide)).2.1

/-- Characterisation of the `gen_download_lists` fold as a pair of
filters. -/
theorem gen_download_lists_loop_eq (fs : FS) (o j : String) (tiles : List Tile) :
    gen_download_lists_loop fs o j tiles =
      (tiles.filter (fun t => (fs.files (t.full_path o j)).isNone),
       tiles.filter (fun t => (fs.files (t.full_path o j)).isSome)) := by
  unfold gen_download_lists_loop
  suffices h : ∀ (l : List Tile) (d e : List Tile),
      l.foldl
        (fun acc tile =>
          if (fs.files (tile.full_path o j)).isSome then
            (acc.1, acc.2 ++ [tile])
          else
            (acc.1 ++ [tile], acc.2))
        (d, e) =
      (d ++ l.filter (fun t => (fs.files (t.full_path o j)).isNone),
       e ++ l.filter (fun t => (fs.files (t.full_path o j)).isSome)) by
    simpa using h tiles [] []
  intro l
  induction l with
  | nil => intro d e; simp
  | cons t l ih =>
    intro d e
    rcases hft : fs.files (t.full_path o j) with _ | v
    · simp [hft, ih, List.filter_cons, List.append_assoc]
    · simp [hft, ih, List.filter_cons, List.append_assoc]

/-- C2: for every output root, tileset and disk state, construction
partitions all tiles of the requested zooms into `downloads` (file absent)
and `exists` (file present): the two lists are the corresponding filters
of the full enumeration, their concatenation is a permutation of it
(every tile covered exactly once), no tile is in both, and when every
target file exists the partition is `downloads = []`,
`exists = all tiles`. -/
theorem c2_download_partition (g : GeoFns) (fs : FS) (out_path : String)
    (ts : TileSet) :
    (TileDownloadJob.make g fs out_path ts).downloads =
      (ts.all_tiles g).filter
        (fun t => (fs.files (t.full_path out_path ts.folder)).isNone) ∧
    (TileDownloadJob.make g fs out_path ts).exists' =
      (ts.all_tiles g).filter
        (fun t => (fs.files (t.full_path out_path ts.folder)).isSome) ∧
    ((TileDownloadJob.make g fs out_path ts).downloads ++
      (TileDownloadJob.make g fs out_path ts).exists').Perm (ts.all_tiles g) ∧
    (∀ t ∈ (TileDownloadJob.make g fs out_path ts).downloads,
      fs.files (t.full_path out_path ts.folder) = none) ∧
    (∀ t ∈ (TileDownloadJob.make g fs out_path ts).exists',
      (fs.files (t.full_path out_path ts.folder)).isSome) ∧
    (∀ t ∈ (TileDownloadJob.make g fs out_path ts).downloads,
      t ∉ (TileDownloadJob.make g fs out_path ts).exists') ∧
    ((∀ t ∈ ts.all_tiles g,
        (fs.files (t.full_path out_path ts.folder)).isSome) →
      (TileDownloadJob.make g fs out_path ts).downloads = [] ∧
      (TileDownloadJob.make g fs out_path ts).exists' = ts.all_tiles g) := by
  have hd : (TileDownloadJob.make g fs out_path ts).downloads =
      (ts.all_tiles g).filter
        (fun t => (fs.files (t.full_path out_path ts.folder)).isNone) := by
    simp [TileDownloadJob.make, gen_download_lists_loop_eq]
  have he : (TileDownloadJob.make g fs out_path ts).exists' =
      (ts.all_tiles g).filter
        (fun t => (fs.files (t.full_path out_path ts.folder)).isSome) := by
    simp [TileDownloadJob.make, gen_download_lists_loop_eq]
  refine ⟨hd, he, ?_, ?_, ?_, ?_, ?_⟩
  · rw [hd, he]
    have hperm := List.filter_append_perm
      (fun t : Tile => (fs.files (t.full_path out_path ts.folder)).isSome)
      (ts.all_tiles g)
    have hrw : (fun t : Tile => (fs.files (t.full_path out_path ts.folder)).isNone) =
        (fun t : Tile => !(fs.files (t.full_path out_path ts.folder)).isSome) := by
      funext t
      cases fs.files (t.full_path out_path ts.folder) <;> rfl
    rw [hrw]
    exact List.perm_append_comm.trans hperm
  · intro t ht
    rw [hd] at ht
    have := List.of_mem_filter ht
    simpa [Option.isNone_iff_eq_none] using this
  · intro t ht
    rw [he] at ht
    simpa using List.of_mem_filter ht
  · intro t ht hte
    rw [hd] at ht
    rw [he] at hte
    have h1 := List.of_mem_filter ht
    have h2 := List.of_mem_filter hte
    simp at h1 h2
    rw [h1] at h2
    simp at h2
  · intro hall
    constructor
    · rw [hd]
      refine List.filter_eq_nil_iff.mpr ?_
      intro t ht
      have hsome := hall t ht
      simp only [Option.isNone_iff_eq_none]
      intro hn
      rw [hn] at hsome
      simp at hsome
    · rw [he]
      refine List.filter_eq_self.mpr ?_
      intro t ht
      simpa using hall t ht

/-- Witness for C2: over a filesystem that already holds every target
file, the partition puts everything in `exists`. -/
theorem c2_download_partition_witness :
    let fsAll : FS := { files := fun _ => some (.bytes [1]), dirs := fun _ => true }
    (TileDownloadJob.make gW0 fsAll "out" tsW0).downloads = [] ∧
    (TileDownloadJob.make gW0 fsAll "out" tsW0).exists' = tsW0.all_tiles gW0 := by
  intro fsAll
  exact (c2_download_partition gW0 fsAll "out" tsW0).2.2.2.2.2.2
    (fun t _ => rfl)

/-- Each loop iteration increments `attempted` by exactly 1, whatever the
outcome: the increment is the first statement of the `try` block. -/
theorem get_tiles_step_attempted (net : Tile → NetResult)
    (blank : Option Bytes) (reencode : Bytes → Bytes) (o j : String)
    (st : RunState) (t : Tile) :
    (get_tiles_step net blank reencode o j st t).counts.attempted =
      st.counts.attempted + 1 := by
  unfold get_tiles_step fetch fetch_inflight
  rcases net t with b | code | _
  · rcases hb : b.isEmpty <;> simp [hb]
  · by_cases h403 : code = 403
    · rcases ht : t.image with _ | b
      · simp [h403, ht]
      · rcases hb : b.isEmpty <;> simp [h403, ht, hb]
    · by_cases h404 : code = 404
      · rcases blank with _ | bl
        · rcases ht : t.image with _ | b
          · simp [h403, h404, ht]
          · rcases hb : b.isEmpty <;> simp [h403, h404, ht, hb]
        · rcases hb : bl.isEmpty <;> simp [h403, h404, hb]
      · rcases ht : t.image with _ | b
        · simp [h403, h404, ht]
        · rcases hb : b.isEmpty <;> simp [h403, h404, ht, hb]
  · rcases ht : t.image with _ | b
    · simp [ht]
    · rcases hb : b.isEmpty <;> simp [ht, hb]

/-- C6: after a completed run, `attempted` equals the length of
`downloads`, for every mixture of per-tile outcomes (any `net`), any
placeholder-file state and any starting filesystem. -/
theorem c6_attempted_eq_downloads (net : Tile → NetResult)
    (blank : Option Bytes) (reencode : Bytes → Bytes)
    (job : TileDownloadJob) (fs0 : FS) :
    (get_tiles net blank reencode job fs0).counts.attempted =
      job.downloads.length := by
  unfold get_tiles
  have h : ∀ (l : List Tile) (st : RunState),
      (l.foldl (get_tiles_step net blank reencode job.out_path job.job_name)
        st).counts.attempted = st.counts.attempted + l.length := by
    intro l
    induction l with
    | nil => intro st; simp
    | cons t l ih =>
      intro st
      rw [List.foldl_cons, ih, get_tiles_step_attempted, List.length_cons]
      omega
  rw [h]
  simp

/-- C7: no per-tile outcome aborts the run.  Whatever the response —
success, an HTTPError of any code, a transport URLError, even a 404 with
the placeholder file itself missing (where the handler raises IOError
mid-way) — the `finally: return tile` clause makes `fetch` return the
tile (same `x`, `y`, `z`), and the loop then proceeds to the remaining
tiles of `downloads`. -/
theorem c7_fetch_never_aborts (net : Tile → NetResult)
    (blank : Option Bytes) (reencode : Bytes → Bytes) (o j : String)
    (c : Counts) (t : Tile) (st : RunState) (rest : List Tile) :
    (fetch net blank c t).2.x = t.x ∧
    (fetch net blank c t).2.y = t.y ∧
    (fetch net blank c t).2.z = t.z ∧
    (t :: rest).foldl (get_tiles_step net blank reencode o j) st =
      rest.foldl (get_tiles_step net blank reencode o j)
        (get_tiles_step net blank reencode o j st t) := by
  refine ⟨?_, ?_, ?_, rfl⟩ <;>
    · unfold fetch fetch_inflight
      rcases net t with b | code | _ <;> simp
      by_cases h403 : code = 403
      · simp [h403]
      · by_cases h404 : code = 404
        · rcases blank with _ | bl <;> simp [h403, h404]
        · simp [h403, h404]

/-- C3: per-tile outcome classification of one loop iteration, from any
reachable state.  A success with a (per the spec, non-empty) body `b`
increments `found` by 1, leaves `not_found` and `blocked` unchanged,
attaches `b` as the payload and persists its PIL re-encoding at the
tile's canonical path, appending the tile to `exists`; a 404 increments
`not_found` by exactly 1, leaves `found` and `blocked` unchanged, and
persists the placeholder image at the tile's path; a 403 increments
`blocked` by exactly 1, leaves the other two unchanged, gives the tile no
payload, and writes no file. -/
theorem c3_outcome_classification (net : Tile → NetResult)
    (blank : Option Bytes) (reencode : Bytes → Bytes) (o j : String)
    (st : RunState) (tile : Tile) :
    (∀ b, net tile = .success b → b ≠ [] →
      (get_tiles_step net blank reencode o j st tile).counts.found =
        st.counts.found + 1 ∧
      (get_tiles_step net blank reencode o j st tile).counts.not_found =
        st.counts.not_found ∧
      (get_tiles_step net blank reencode o j st tile).counts.blocked =
        st.counts.blocked ∧
      (fetch net blank st.counts tile).2.image = some b ∧
      (get_tiles_step net blank reencode o j st tile).fs.files
          (tile.full_path o j) = some (.bytes (reencode b)) ∧
      (get_tiles_step net blank reencode o j st tile).exists' =
        st.exists' ++ [{ tile with image := none }]) ∧
    (∀ bl, net tile = .httpError 404 → blank = some bl → bl ≠ [] →
      (get_tiles_step net blank reencode o j st tile).counts.not_found =
        st.counts.not_found + 1 ∧
      (get_tiles_step net blank reencode o j st tile).counts.found =
        st.counts.found ∧
      (get_tiles_step net blank reencode o j st tile).counts.blocked =
        st.counts.blocked ∧
      (fetch net blank st.counts tile).2.image = some bl ∧
      (get_tiles_step net blank reencode o j st tile).fs.files
          (tile.full_path o j) = some (.bytes (reencode bl))) ∧
    (net tile = .httpError 403 → tile.image = none →
      (get_tiles_step net blank reencode o j st tile).counts.blocked =
        st.counts.blocked + 1 ∧
      (get_tiles_step net blank reencode o j st tile).counts.found =
        st.counts.found ∧
      (get_tiles_step net blank reencode o j st tile).counts.not_found =
        st.counts.not_found ∧
      (fetch net blank st.counts tile).2.image = none ∧
      ∀ p, (get_tiles_step net blank reencode o j st tile).fs.files p =
        st.fs.files p) := by
  refine ⟨?_, ?_, ?_⟩
  · intro b hnet hb
    have hbe : b.isEmpty = false := by
      cases b with
      | nil => exact absurd rfl hb
      | cons x xs => rfl
    unfold get_tiles_step fetch fetch_inflight
    rw [hnet]
    simp [hbe, FS.write, Tile.full_path]
  · intro bl hnet hblank hbl
    have hbe : bl.isEmpty = false := by
      cases bl with
      | nil => exact absurd rfl hbl
      | cons x xs => rfl
    unfold get_tiles_step fetch fetch_inflight
    rw [hnet, hblank]
    simp [hbe, FS.write, Tile.full_path]
  · intro hnet himg
    unfold get_tiles_step fetch fetch_inflight
    rw [hnet]
    simp [himg, test_path, FPath.dirname, Tile.full_path, FS.createDir]
    refine fun p => ?_
    split <;> rfl

/-- Witness for C3: success, 404 and 403 cases at concrete inputs. -/
theorem c3_outcome_classification_witness :
    let netS : Tile → NetResult := fun _ => .success [7]
    let net4 : Tile → NetResult := fun _ => .httpError 404
    let net3 : Tile → NetResult := fun _ => .httpError 403
    let fs0 : FS := { files := fun _ => none, dirs := fun _ => false }
    let st0 : RunState := { counts := {}, exists' := [], fs := fs0 }
    let t0 : Tile := { x := 1, y := 2, z := 3 }
    (get_tiles_step netS (some [9]) id "o" "j" st0 t0).counts.found = 1 ∧
    (get_tiles_step net4 (some [9]) id "o" "j" st0 t0).counts.not_found = 1 ∧
    (get_tiles_step net3 (some [9]) id "o" "j" st0 t0).counts.blocked = 1 := by
  intro netS net4 net3 fs0 st0 t0
  refine ⟨?_, ?_, ?_⟩
  · have h := (c3_outcome_classification netS (some [9]) id "o" "j" st0 t0).1
      [7] rfl (by simp)
    simpa using h.1
  · have h := (c3_outcome_classification net4 (some [9]) id "o" "j" st0 t0).2.1
      [9] rfl rfl (by simp)
    simpa using h.1
  · have h := (c3_outcome_classification net3 (some [9]) id "o" "j" st0 t0).2.2
      rfl rfl
    simpa using h.1

/-- C8 amended.  C8 as claimed is false: `test_path(filename)` runs before
the `if tile.image:` test, so the parent directory is created even when
the fetch yielded no payload.  Amended behaviour: for a payload-less
outcome (HTTP 403 or a transport error) no file is written, but the
tile's parent directory is still (idempotently) created. -/
theorem c8_amended_dir_always_created (net : Tile → NetResult)
    (blank : Option Bytes) (reencode : Bytes → Bytes) (o j : String)
    (st : RunState) (tile : Tile)
    (himg : tile.image = none)
    (hout : net tile = .httpError 403 ∨ net tile = .urlError) :
    (∀ p, (get_tiles_step net blank reencode o j st tile).fs.files p =
      st.fs.files p) ∧
    (get_tiles_step net blank reencode o j st tile).fs.dirs
      ⟨o, j, tile.z, tile.x⟩ = true := by
  have hstep : (get_tiles_step net blank reencode o j st tile).fs =
      test_path st.fs (tile.full_path o j) := by
    rcases hout with hnet | hnet <;>
      · unfold get_tiles_step fetch fetch_inflight
        rw [hnet]
        simp [himg]
  rw [hstep]
  constructor
  · intro p
    unfold test_path FPath.dirname Tile.full_path FS.createDir
    split
    · split <;> rfl
    · rfl
  · unfold test_path FPath.dirname Tile.full_path FS.createDir
    simp only []
    split
    · rename_i hdir
      exact hdir
    · simp

/-- Counterexample to C8 as stated: running the fetch loop on `jobW0` with
every request blocked (403, hence no payload for any tile) still creates
the tile's parent directory, which did not exist before; no file is
written.  The claim said the filesystem would be left unchanged for such
tiles. -/
theorem c8_counterexample :
    fsEmpty.dirs ⟨"out", "job0", 0, 0⟩ = false ∧
    jobW0.downloads = [{ x := 0, y := 0, z := 0 }] ∧
    (∀ t, net403 t = .httpError 403) ∧
    (get_tiles net403 (some [9]) id jobW0 fsEmpty).fs.dirs
      ⟨"out", "job0", 0, 0⟩ = true ∧
    (∀ p, (get_tiles net403 (some [9]) id jobW0 fsEmpty).fs.files p = none) := by
  refine ⟨rfl, by decide, fun _ => rfl, by decide, fun p => rfl⟩

/-- Witness for the amended C8 at the concrete 403 run. -/
theorem c8_amended_witness :
    let st0 : RunState := { counts := {}, exists' := [], fs := fsEmpty }
    let t0 : Tile := { x := 0, y := 0, z := 0 }
    (∀ p, (get_tiles_step net403 (some [9]) id "out" "job0" st0 t0).fs.files p =
      st0.fs.files p) ∧
    (get_tiles_step net403 (some [9]) id "out" "job0" st0 t0).fs.dirs
      ⟨"out", "job0", 0, 0⟩ = true := by
  intro st0 t0
  exact c8_amended_dir_always_created net403 (some [9]) id "out" "job0" st0 t0
    rfl (Or.inl rfl)

/-- The paste loop fails on the first missing tile file. -/
theorem stitch_loop_error (fs : FS) (o j : String) (start : Int × Int) :
    ∀ (l : List Tile) (acc : List (FileData × Int × Int)),
      (∃ t ∈ l, fs.files (t.full_path o j) = none) →
      ∃ t ∈ l, fs.files (t.full_path o j) = none ∧
        stitch_loop fs o j start l acc = .error (t.full_path o j) := by
  intro l
  induction l with
  | nil =>
    intro acc h
    simp at h
  | cons t rest ih =>
    intro acc h
    rcases hft : fs.files (t.full_path o j) with _ | img
    · exact ⟨t, List.mem_cons_self t rest, hft, by simp [stitch_loop, hft]⟩
    · have hrest : ∃ u ∈ rest, fs.files (u.full_path o j) = none := by
        rcases h with ⟨u, hu, hnone⟩
        rcases List.mem_cons.mp hu with rfl | hu2
        · rw [hft] at hnone
          exact absurd hnone (by simp)
        · exact ⟨u, hu2, hnone⟩
      rcases ih (acc ++ [(img, 256 * (t.x - start.1), 256 * (t.y - start.2))])
        hrest with ⟨u, hu, hnone, hloop⟩
      exact ⟨u, List.mem_cons_of_mem t hu, hnone, by
        simp only [stitch_loop, hft]
        exact hloop⟩

/-- The paste loop succeeds when every tile file is present, pasting each
tile's on-disk image at its pixel offset. -/
theorem stitch_loop_ok (fs : FS) (o j : String) (start : Int × Int) :
    ∀ (l : List Tile) (acc : List (FileData × Int × Int)),
      (∀ t ∈ l, (fs.files (t.full_path o j)).isSome) →
      ∃ ps, stitch_loop fs o j start l acc = .ok (acc ++ ps) ∧
        List.Forall₂
          (fun (t : Tile) (p : FileData × Int × Int) =>
            fs.files (t.full_path o j) = some p.1 ∧
            p.2.1 = 256 * (t.x - start.1) ∧
            p.2.2 = 256 * (t.y - start.2))
          l ps := by
  intro l
  induction l with
  | nil =>
    intro acc _
    exact ⟨[], by simp [stitch_loop], List.Forall₂.nil⟩
  | cons t rest ih =>
    intro acc h
    rcases hft : fs.files (t.full_path o j) with _ | img
    · have := h t (List.mem_cons_self t rest)
      rw [hft] at this
      simp at this
    · rcases ih (acc ++ [(img, 256 * (t.x - start.1), 256 * (t.y - start.2))])
        (fun u hu => h u (List.mem_cons_of_mem t hu)) with ⟨ps, hloop, hall⟩
      refine ⟨(img, 256 * (t.x - start.1), 256 * (t.y - start.2)) :: ps, ?_, ?_⟩
      · simp only [stitch_loop, hft, hloop]
        simp
      · exact List.Forall₂.cons ⟨hft, rfl, rfl⟩ hall

/-- C4: if any tile file of the target zoom is absent, `stitch` fails
with an error naming the (first) missing tile's path and leaves the
filesystem untouched — neither the mosaic raster nor the world file is
written. -/
theorem c4_stitch_missing_tile (g : GeoFns) (s : TileStitchJob) (fs : FS)
    (h : ∃ t ∈ s.tileset.tiles g s.zoom,
      fs.files (t.full_path s.out_path s.job_name) = none) :
    ∃ t ∈ s.tileset.tiles g s.zoom,
      fs.files (t.full_path s.out_path s.job_name) = none ∧
      s.stitch g fs = (fs, .error (t.full_path s.out_path s.job_name)) := by
  rcases stitch_loop_error fs s.out_path s.job_name
      (s.tileset.top_left g s.zoom) (s.tileset.tiles g s.zoom) [] h with
    ⟨t, ht, hnone, hloop⟩
  exact ⟨t, ht, hnone, by unfold TileStitchJob.stitch; rw [hloop]⟩

/-- Witness for C4: stitching `sW2` over the empty filesystem fails on a
missing tile and writes nothing. -/
theorem c4_stitch_missing_tile_witness :
    ∃ t ∈ tsW2.tiles gW2 1,
      fsEmpty.files (t.full_path "out" "demo2") = none ∧
      TileStitchJob.stitch gW2 sW2 fsEmpty =
        (fsEmpty, .error (t.full_path "out" "demo2")) := by
  exact c4_stitch_missing_tile gW2 sW2 fsEmpty
    ⟨⟨0, 0, 1, none⟩, by decide, rfl⟩

/-- C5: on a completed zoom level (every tile file present), `stitch`
produces a raster of exactly `256·cols × 256·rows` pixels, pastes each
tile's on-disk image at `(256·(x − topLeft.x), 256·(y − topLeft.y))`,
writes it at the mosaic path, and writes the six world-file lines
`|left − right| / width`, `0`, `0`, `−|top − bottom| / height`,
`origin_x`, `origin_y`, where the origin is the meters coordinate of the
top-left corner of the top-left tile. -/
theorem c5_stitch_complete (g : GeoFns) (s : TileStitchJob) (fs : FS)
    (h : ∀ t ∈ s.tileset.tiles g s.zoom,
      (fs.files (t.full_path s.out_path s.job_name)).isSome) :
    ∃ pastes,
      s.stitch g fs =
        ((fs.write (.mosaic s.out_path s.job_name)
            (.raster (s.px g) (s.py g) pastes)).write
          (.world s.out_path s.job_name) (.worldFile (s.gen_world g)),
         .ok (.raster (s.px g) (s.py g) pastes)) ∧
      List.Forall₂
        (fun (t : Tile) (p : FileData × Int × Int) =>
          fs.files (t.full_path s.out_path s.job_name) = some p.1 ∧
          p.2.1 = 256 * (t.x - (s.tileset.top_left g s.zoom).1) ∧
          p.2.2 = 256 * (t.y - (s.tileset.top_left g s.zoom).2))
        (s.tileset.tiles g s.zoom) pastes ∧
      s.px g = 256 * (s.tileset.cols g s.zoom).length ∧
      s.py g = 256 * (s.tileset.rows g s.zoom).length ∧
      s.gen_world g =
        [|(s.tileset.extents_meters g s.zoom).1.1 -
            (s.tileset.extents_meters g s.zoom).2.1| / (s.px g : ℚ),
         0, 0,
         -|(s.tileset.extents_meters g s.zoom).1.2 -
            (s.tileset.extents_meters g s.zoom).2.2| / (s.py g : ℚ),
         (s.tileset.extents_meters g s.zoom).1.1,
         (s.tileset.extents_meters g s.zoom).1.2] ∧
      (s.tileset.extents_meters g s.zoom).1 =
        g.lonlat_to_meters (g.to_point (s.tileset.top_left g s.zoom).1
          (s.tileset.top_left g s.zoom).2 s.zoom) := by
  rcases stitch_loop_ok fs s.out_path s.job_name
      (s.tileset.top_left g s.zoom) (s.tileset.tiles g s.zoom) [] h with
    ⟨ps, hloop, hall⟩
  refine ⟨ps, ?_, ?_, rfl, rfl, ?_, rfl⟩
  · unfold TileStitchJob.stitch
    rw [hloop]
    simp
  · simpa using hall
  · unfold TileStitchJob.gen_world
    have hpy : |((s.tileset.extents_meters g s.zoom).1.2 -
        (s.tileset.extents_meters g s.zoom).2.2) / (s.py g : ℚ)| =
        |(s.tileset.extents_meters g s.zoom).1.2 -
          (s.tileset.extents_meters g s.zoom).2.2| / (s.py g : ℚ) := by
      rw [abs_div]
      congr 1
      exact abs_of_nonneg (by positivity)
    simp [hpy, neg_div]

/-- Witness for C5: the 2×2 level of `sW2` stitches to a 512×512 raster
plus the world file. -/
theorem c5_stitch_complete_witness :
    TileStitchJob.px gW2 sW2 = 512 ∧
    TileStitchJob.py gW2 sW2 = 512 ∧
    ∃ pastes,
      TileStitchJob.stitch gW2 sW2 fs4 =
        ((fs4.write (.mosaic "out" "demo2")
            (.raster (TileStitchJob.px gW2 sW2) (TileStitchJob.py gW2 sW2)
              pastes)).write
          (.world "out" "demo2")
          (.worldFile (TileStitchJob.gen_world gW2 sW2)),
         .ok (.raster (TileStitchJob.px gW2 sW2) (TileStitchJob.py gW2 sW2)
          pastes)) := by
  refine ⟨by decide, by decide, ?_⟩
  rcases c5_stitch_complete gW2 sW2 fs4 (by decide) with ⟨ps, heq, -, -, -, -, -⟩
  exact ⟨ps, heq⟩

/-- C10: for every input, the `geotiff` command fails with TypeError at
`TileStitchJob(t)` — the required `zoom` argument is missing — so no
stitching happens and no mosaic or GeoTIFF can be produced. -/
theorem c10_geotiff_typeerror (g : GeoFns) (t : TileDownloadJob) (fs : FS) :
    geotiff_command g t fs = .error .typeError := rfl

end TileTools
